import Mathlib

/-!
Shallow embedding of `src/charm.py` (charm-apache-httpd).

The charm's external effects (subprocess calls, file writes, event
emission) are modelled as a trace of `Cmd` values; the outcomes of
external commands are supplied by an `Env` record (exit codes of
`a2query`, success of `a2dismod`/`a2enmod`/`a2ensite`, `systemctl`
return codes, `systemctl is-active` answers, `apt-get` return codes,
and the base64 decoder, which the source delegates to the `base64`
library).  Python exceptions are modelled as `Option PyErr` results;
a raised exception aborts the rest of the handler, and the state
committed up to that point is returned.

`StoredState._current_modules` is a Python `set`; it is modelled as a
`List String` without duplicates (membership is what matters), with
`set.remove` as `List.erase` and `set.add` as append-if-absent.
-/

/-- External commands and effects issued by the charm, in order. -/
inductive Cmd
  | a2query (module : String)
  | a2dismod (module : String)
  | a2enmod (module : String)
  | a2ensite (site : String)
  | systemctl (command : String) (unit : String)
  | systemctlIsActive (unit : String)
  | writeFile (path : String) (content : String)
  | aptGet (args : List String)
  | emitApacheReady
deriving DecidableEq

/-- `a2query` exit codes, per the `ModuleState` enum in charm.py. -/
inductive ModuleState
  | Found
  | NotFound
  | OffByAdmin
  | OffByMaintainer
deriving DecidableEq

/-- Which `raise ApacheModuleDisableException(...)` site fired; in the
Python source all three share one exception class and differ only in
the message string. -/
inductive DisableReason
  | commandFailed
  | notFound
  | unexpectedState
deriving DecidableEq

/-- The exceptions the charm can raise. -/
inductive PyErr
  | valueError
  | notImplementedError
  | apacheModuleEnable
  | apacheModuleDisable (reason : DisableReason)
  | apacheSiteEnable
  | systemctlCommand (command : String) (rc : Nat)
  | calledProcessError
deriving DecidableEq

/-- Outcomes of the external collaborators invoked by the charm. -/
structure Env where
  moduleQueryCode : String → Nat
  dismodOk : String → Bool
  enmodOk : String → Bool
  ensiteOk : String → Bool
  systemctlRc : String → String → Nat
  isActive : String → Bool
  aptRc : List String → Nat
  b64decode : String → String

/-- `StoredState`: `_current_modules` (a Python set) and `ready`. -/
structure CharmState where
  current : List String
  ready : Bool
deriving DecidableEq

def HTTPD_SERVICE_NAME : String := "apache2"

def SYSTEMCTL_COMMANDS : List String :=
  ["start", "stop", "restart", "reload", "daemon-reload", "disable", "enable"]

/-- `_systemd_unit_command`: runs `systemctl <command> <name>` when the
command is in the supported set, raising `SystemctlCommandException` on
a non-zero return code; an unsupported command raises
`NotImplementedError` without executing anything. -/
def systemd_unit_command (env : Env) (command name : String) :
    List Cmd × Option PyErr :=
  if command ∈ SYSTEMCTL_COMMANDS then
    let rc := env.systemctlRc command name
    ([Cmd.systemctl command name],
      if rc = 0 then none else some (PyErr.systemctlCommand command rc))
  else
    ([], some PyErr.notImplementedError)

/-- `_is_systemd_unit_active`: `systemctl is-active` probe. -/
def is_systemd_unit_active (env : Env) (name : String) : List Cmd × Bool :=
  ([Cmd.systemctlIsActive name], env.isActive name)

/-- `ModuleState(code)`: the enum constructor; an exit code outside
`{0, 1, 32, 33}` has no corresponding member and raises `ValueError`. -/
def moduleStateOfCode (code : Nat) : Option ModuleState :=
  if code = 0 then some ModuleState.Found
  else if code = 1 then some ModuleState.NotFound
  else if code = 32 then some ModuleState.OffByAdmin
  else if code = 33 then some ModuleState.OffByMaintainer
  else none

/-- `_get_module_state`: runs `a2query -m` and feeds the exit code to
the `ModuleState` constructor. -/
def get_module_state (env : Env) (module_name : String) :
    List Cmd × Except PyErr ModuleState :=
  ([Cmd.a2query module_name],
    match moduleStateOfCode (env.moduleQueryCode module_name) with
    | some s => Except.ok s
    | none => Except.error PyErr.valueError)

/-- `_disable_module`: probe the module state, then the if/elif chain of
the source, including its final (dead) `else` branch. -/
def disable_module (env : Env) (module_name : String) :
    List Cmd × Option PyErr :=
  let q := get_module_state env module_name
  match q.2 with
  | Except.error e => (q.1, some e)
  | Except.ok module_state =>
    if module_state = ModuleState.Found then
      if env.dismodOk module_name then
        (q.1 ++ [Cmd.a2dismod module_name], none)
      else
        (q.1 ++ [Cmd.a2dismod module_name],
          some (PyErr.apacheModuleDisable DisableReason.commandFailed))
    else if module_state = ModuleState.OffByAdmin ∨
        module_state = ModuleState.OffByMaintainer then
      (q.1, none)
    else if module_state = ModuleState.NotFound then
      (q.1, some (PyErr.apacheModuleDisable DisableReason.notFound))
    else
      (q.1, some (PyErr.apacheModuleDisable DisableReason.unexpectedState))

/-- `_enable_module`: `a2enmod`, raising on failure. -/
def enable_module (env : Env) (module_name : String) :
    List Cmd × Option PyErr :=
  ([Cmd.a2enmod module_name],
    if env.enmodOk module_name then none else some PyErr.apacheModuleEnable)

/-- `_enable_site`: `a2ensite`, raising on failure. -/
def enable_site (env : Env) (site_name : String) :
    List Cmd × Option PyErr :=
  ([Cmd.a2ensite site_name],
    if env.ensiteOk site_name then none else some PyErr.apacheSiteEnable)

/-- `set.add`: append if absent, keeping the no-duplicates invariant. -/
def addModule (cur : List String) (m : String) : List String :=
  if m ∈ cur then cur else cur ++ [m]

/-- Result of one of the loops inside `on_config_changed`: trace of
commands issued, module set as committed so far, pending exception. -/
structure LoopResult where
  trace : List Cmd
  cur : List String
  err : Option PyErr
deriving DecidableEq

/-- The `for m in modules_to_disable` loop: `_disable_module(m)` then
`self.state._current_modules.remove(m)`; an exception aborts the loop,
leaving already-committed removals committed. -/
def disableLoop (env : Env) : List String → List String → LoopResult
  | [], cur => ⟨[], cur, none⟩
  | m :: rest, cur =>
    let d := disable_module env m
    match d.2 with
    | some e => ⟨d.1, cur, some e⟩
    | none =>
      let r := disableLoop env rest (cur.erase m)
      ⟨d.1 ++ r.trace, r.cur, r.err⟩

/-- The `for m in config_modules` loop: `_enable_module(m)` then
`self.state._current_modules.add(m)`; an exception aborts the loop. -/
def enableLoop (env : Env) : List String → List String → LoopResult
  | [], cur => ⟨[], cur, none⟩
  | m :: rest, cur =>
    let e := enable_module env m
    match e.2 with
    | some err => ⟨e.1, cur, some err⟩
    | none =>
      let r := enableLoop env rest (addModule cur m)
      ⟨e.1 ++ r.trace, r.cur, r.err⟩

/-- `current ^ config_modules` (symmetric difference) on the list model:
empty exactly when the two lists have the same members. -/
def symmDiffList (xs ys : List String) : List String :=
  xs.filter (fun m => ¬ m ∈ ys) ++ ys.filter (fun m => ¬ m ∈ xs)

/-- `_assess_readiness`: probe `is-active`; if active set `ready := True`
and emit `apache_ready`, else set `ready := False`. -/
def assess_readiness (env : Env) (st : CharmState) : List Cmd × CharmState :=
  let probe := is_systemd_unit_active env HTTPD_SERVICE_NAME
  if probe.2 then
    (probe.1 ++ [Cmd.emitApacheReady], { st with ready := true })
  else
    (probe.1, { st with ready := false })

/-- Result of a config-changed reconciliation pass. -/
structure ReconcileResult where
  trace : List Cmd
  state : CharmState
  err : Option PyErr
deriving DecidableEq

/-- `on_config_changed`.  `configModulesRaw` is the whitespace-split
value of the `modules` config option; the source wraps it in `set(...)`,
modelled by `dedup`.  `modules_to_disable` and `changed_modules` are
computed against the pre-mutation current set; the disable loop runs
first, then the enable loop, then a restart when `changed_modules` is
non-empty, then readiness reassessment.  An exception anywhere aborts
the rest of the pass. -/
def on_config_changed (env : Env) (st : CharmState)
    (configModulesRaw : List String) : ReconcileResult :=
  let config_modules := configModulesRaw.dedup
  let modules_to_disable := st.current.filter (fun m => ¬ m ∈ config_modules)
  let changed_modules := symmDiffList st.current config_modules
  let rd := disableLoop env modules_to_disable st.current
  match rd.err with
  | some e => ⟨rd.trace, { st with current := rd.cur }, some e⟩
  | none =>
    let re := enableLoop env config_modules rd.cur
    match re.err with
    | some e => ⟨rd.trace ++ re.trace, { st with current := re.cur }, some e⟩
    | none =>
      if changed_modules.isEmpty then
        let ar := assess_readiness env { st with current := re.cur }
        ⟨rd.trace ++ re.trace ++ ar.1, ar.2, none⟩
      else
        let rc := systemd_unit_command env "restart" HTTPD_SERVICE_NAME
        match rc.2 with
        | some e =>
          ⟨rd.trace ++ re.trace ++ rc.1, { st with current := re.cur }, some e⟩
        | none =>
          let ar := assess_readiness env { st with current := re.cur }
          ⟨rd.trace ++ re.trace ++ rc.1 ++ ar.1, ar.2, none⟩

/-- One element of the deserialized `vhosts` payload: `template` and
`port` are read by the handler; `protocol` may be present in the
payload but the handler never reads it. -/
structure VhostSpec where
  template : String
  port : Nat
  protocol : Option String
deriving DecidableEq

/-- `create_vhost`: decode the template, derive the vhost name from the
protocol when given, else from the port; write the rendered config under
`sites-available`; return the vhost name. -/
def create_vhost (env : Env) (server_name template : String) (port : Nat)
    (protocol : Option String) : List Cmd × String :=
  let protocol := protocol.getD (toString port)
  let decoded := env.b64decode template
  let vhost_name := server_name ++ "_" ++ protocol
  let vhost_file := "/etc/apache2/sites-available/" ++ vhost_name ++ ".conf"
  ([Cmd.writeFile vhost_file decoded], vhost_name)

/-- The `for vhost in vhosts` loop of the relation handler:
`self._enable_site(self.create_vhost(server_name, vhost["template"],
vhost['port']))` — note the handler passes no `protocol` argument. -/
def vhostLoop (env : Env) (server_name : String) :
    List VhostSpec → List Cmd × Option PyErr
  | [] => ([], none)
  | v :: rest =>
    let cv := create_vhost env server_name v.template v.port none
    let es := enable_site env cv.2
    match es.2 with
    | some e => (cv.1 ++ es.1, some e)
    | none =>
      let r := vhostLoop env server_name rest
      (cv.1 ++ es.1 ++ r.1, r.2)

/-- Result of a vhost-relation pass: commands, (unchanged) state,
whether `event.defer()` was called, pending exception. -/
structure VhostResult where
  trace : List Cmd
  state : CharmState
  deferred : Bool
  err : Option PyErr
deriving DecidableEq

/-- `on_vhost_config_relation_changed`: defer when not ready; silently
skip when no remote unit or no `vhosts` payload; otherwise process each
vhost in payload order and finish with one `systemctl reload`.
`payload = none` models an absent or empty `vhosts` value. -/
def on_vhost_config_relation_changed (env : Env) (st : CharmState)
    (hasUnit : Bool) (payload : Option (List VhostSpec))
    (server_name : String) : VhostResult :=
  if st.ready = false then
    ⟨[], st, true, none⟩
  else if hasUnit = false then
    ⟨[], st, false, none⟩
  else
    match payload with
    | none => ⟨[], st, false, none⟩
    | some vhosts =>
      let r := vhostLoop env server_name vhosts
      match r.2 with
      | some e => ⟨r.1, st, false, some e⟩
      | none =>
        let rc := systemd_unit_command env "reload" HTTPD_SERVICE_NAME
        ⟨r.1 ++ rc.1, st, false, rc.2⟩

/-- A Python value passed as the `packages` argument of `apt_install`:
a list (a `Sequence`), a `str` (also a `Sequence` — extending the
command appends its characters one by one), or a non-`Sequence`. -/
inductive PyPackages
  | pyList (ps : List String)
  | pyStr (s : String)
  | notSequence
deriving DecidableEq

/-- `apt_install`: build the `apt-get` command line, extend it with the
packages when they form a `Sequence` (raising `ValueError` otherwise),
and `check_call` it. -/
def apt_install (env : Env) (packages : PyPackages)
    (options : Option (List String)) : List Cmd × Option PyErr :=
  let options := options.getD ["--option=Dpkg::Options::=--force-confold"]
  let command := ["apt-get", "--assume-yes"] ++ options ++ ["install"]
  match packages with
  | PyPackages.pyList ps =>
    let command := command ++ ps
    ([Cmd.aptGet command],
      if env.aptRc command = 0 then none else some PyErr.calledProcessError)
  | PyPackages.pyStr s =>
    let command := command ++ s.toList.map (fun c => String.mk [c])
    ([Cmd.aptGet command],
      if env.aptRc command = 0 then none else some PyErr.calledProcessError)
  | PyPackages.notSequence => ([], some PyErr.valueError)

/-- Command classifiers used to count external effects in a trace. -/
def isDismodCmd : Cmd → Bool
  | Cmd.a2dismod _ => true
  | _ => false

def isEnmodCmd : Cmd → Bool
  | Cmd.a2enmod _ => true
  | _ => false

def isEnsiteCmd : Cmd → Bool
  | Cmd.a2ensite _ => true
  | _ => false

def isWriteCmd : Cmd → Bool
  | Cmd.writeFile _ _ => true
  | _ => false

def isRestartCmd : Cmd → Bool
  | Cmd.systemctl c _ => c = "restart"
  | _ => false

def isReloadCmd : Cmd → Bool
  | Cmd.systemctl c _ => c = "reload"
  | _ => false

def PyErr.isSystemctlCommand : PyErr → Bool
  | PyErr.systemctlCommand _ _ => true
  | _ => false

/-- The site identifier as §4.3 of the spec describes it: protocol when
the payload supplies one, port otherwise.  (Spec-side definition, for
comparison with the code's behaviour.) -/
def specSiteName (server_name : String) (v : VhostSpec) : String :=
  server_name ++ "_" ++ (match v.protocol with
    | some p => p
    | none => toString v.port)

/-- An environment where every external command succeeds and every
probed module is `Found`; used for concrete evaluations. -/
def envAllOk : Env where
  moduleQueryCode := fun _ => 0
  dismodOk := fun _ => true
  enmodOk := fun _ => true
  ensiteOk := fun _ => true
  systemctlRc := fun _ _ => 0
  isActive := fun _ => true
  aptRc := fun _ => 0
  b64decode := fun s => s

/-- Environment whose module probe always reports OffByMaintainer. -/
def envOffByMaintainer : Env := { envAllOk with moduleQueryCode := fun _ => 33 }

/-- Environment whose module probe always reports NotFound. -/
def envNotFound : Env := { envAllOk with moduleQueryCode := fun _ => 1 }

/-- Environment whose module probe exits with the unmapped code 7. -/
def envBadCode : Env := { envAllOk with moduleQueryCode := fun _ => 7 }

/-- Environment where every systemctl command returns status 1. -/
def envRc1 : Env := { envAllOk with systemctlRc := fun _ _ => 1 }

/-- The commands the vhost loop issues when every site-enable succeeds:
per vhost, in payload order, one file write then one `a2ensite`. -/
def vhostBatchTrace (env : Env) (server_name : String)
    (vs : List VhostSpec) : List Cmd :=
  (vs.map fun v =>
    [Cmd.writeFile ("/etc/apache2/sites-available/" ++
        (server_name ++ "_" ++ toString v.port) ++ ".conf")
        (env.b64decode v.template),
     Cmd.a2ensite (server_name ++ "_" ++ toString v.port)]).flatten

/-! ### Helper lemmas about the loops and probes -/

theorem disable_module_trace (env : Env) (m : String) :
    (disable_module env m).1 = [Cmd.a2query m] ∨
      (disable_module env m).1 = [Cmd.a2query m, Cmd.a2dismod m] := by
  unfold disable_module get_module_state
  cases h : moduleStateOfCode (env.moduleQueryCode m) with
  | none => simp
  | some s => cases s <;> cases hd : env.dismodOk m <;> simp [hd]

theorem disable_module_countP_restart (env : Env) (m : String) :
    ((disable_module env m).1).countP isRestartCmd = 0 := by
  rcases disable_module_trace env m with h | h <;>
    simp [h, List.countP, List.countP.go, isRestartCmd]

theorem disableLoop_countP_restart (env : Env) (L : List String) :
    ∀ cur, ((disableLoop env L cur).trace).countP isRestartCmd = 0 := by
  induction L with
  | nil => intro cur; simp [disableLoop]
  | cons a rest ih =>
    intro cur
    rw [disableLoop]
    cases h : (disable_module env a).2 with
    | some e => simpa using disable_module_countP_restart env a
    | none =>
      simp only [List.countP_append]
      rw [disable_module_countP_restart env a, ih (cur.erase a)]

theorem enableLoop_countP_restart (env : Env) (L : List String) :
    ∀ cur, ((enableLoop env L cur).trace).countP isRestartCmd = 0 := by
  induction L with
  | nil => intro cur; simp [enableLoop]
  | cons a rest ih =>
    intro cur
    rw [enableLoop]
    cases h : (enable_module env a).2 with
    | some e => simp [enable_module, List.countP, List.countP.go, isRestartCmd]
    | none =>
      simp only [List.countP_append]
      rw [ih (addModule cur a)]
      simp [enable_module, List.countP, List.countP.go, isRestartCmd]

theorem disableLoop_err_none (env : Env)
    (hd : ∀ m, (disable_module env m).2 = none) (L : List String) :
    ∀ cur, (disableLoop env L cur).err = none := by
  induction L with
  | nil => intro cur; simp [disableLoop]
  | cons a rest ih =>
    intro cur
    rw [disableLoop]
    cases h : (disable_module env a).2 with
    | some e => rw [hd a] at h; cases h
    | none => simpa using ih (cur.erase a)

theorem enableLoop_all_ok (env : Env) (he : ∀ m, env.enmodOk m = true)
    (L : List String) :
    ∀ cur, enableLoop env L cur =
      ⟨L.map Cmd.a2enmod, L.foldl addModule cur, none⟩ := by
  induction L with
  | nil => intro cur; simp [enableLoop]
  | cons a rest ih =>
    intro cur
    rw [enableLoop]
    simp only [enable_module, he a, if_true]
    rw [ih (addModule cur a)]
    simp

theorem mem_addModule (cur : List String) (a m : String) :
    m ∈ addModule cur a ↔ m ∈ cur ∨ m = a := by
  unfold addModule
  split
  · constructor
    · exact fun h => Or.inl h
    · rintro (h | rfl)
      · exact h
      · assumption
  · simp

theorem mem_foldl_addModule (L : List String) :
    ∀ cur m, m ∈ L.foldl addModule cur ↔ m ∈ cur ∨ m ∈ L := by
  induction L with
  | nil => intro cur m; simp
  | cons a rest ih =>
    intro cur m
    rw [List.foldl_cons, ih (addModule cur a) m, mem_addModule]
    simp
    tauto

theorem disableLoop_mem_of_ok (env : Env) (L : List String) :
    ∀ cur, cur.Nodup → (disableLoop env L cur).err = none →
      ∀ m, m ∈ (disableLoop env L cur).cur ↔ m ∈ cur ∧ ¬ m ∈ L := by
  induction L with
  | nil => intro cur _ _ m; simp [disableLoop]
  | cons a rest ih =>
    intro cur hnd h m
    rw [disableLoop] at h ⊢
    cases hd : (disable_module env a).2 with
    | some e => rw [hd] at h; cases h
    | none =>
      rw [hd] at h
      simp only at h ⊢
      rw [ih (cur.erase a) (hnd.erase a) h m, hnd.mem_erase_iff]
      simp
      tauto

theorem enableLoop_mem_of_ok (env : Env) (L : List String) :
    ∀ cur, (enableLoop env L cur).err = none →
      ∀ m, m ∈ (enableLoop env L cur).cur ↔ m ∈ cur ∨ m ∈ L := by
  induction L with
  | nil => intro cur _ m; simp [enableLoop]
  | cons a rest ih =>
    intro cur h m
    rw [enableLoop] at h ⊢
    cases hd : (enable_module env a).2 with
    | some e => rw [hd] at h; cases h
    | none =>
      rw [hd] at h
      simp only at h ⊢
      rw [ih (addModule cur a) h m, mem_addModule]
      simp
      tauto

theorem disableLoop_mem_of_fail (env : Env) (a : String)
    (ha : (disable_module env a).2 ≠ none) (L : List String) :
    ∀ cur, a ∈ cur → a ∈ (disableLoop env L cur).cur := by
  induction L with
  | nil => intro cur h; simpa [disableLoop] using h
  | cons b rest ih =>
    intro cur h
    rw [disableLoop]
    cases hd : (disable_module env b).2 with
    | some e => simpa using h
    | none =>
      simp only
      apply ih (cur.erase b)
      have hab : a ≠ b := by
        intro hab
        rw [hab] at ha
        exact ha hd
      exact (List.mem_erase_of_ne hab).mpr h

theorem enableLoop_mem_mono (env : Env) (L : List String) :
    ∀ cur m, m ∈ cur → m ∈ (enableLoop env L cur).cur := by
  induction L with
  | nil => intro cur m h; simpa [enableLoop] using h
  | cons a rest ih =>
    intro cur m h
    rw [enableLoop]
    cases hd : (enable_module env a).2 with
    | some e => simpa using h
    | none =>
      simp only
      exact ih (addModule cur a) m ((mem_addModule cur a m).mpr (Or.inl h))

theorem assess_readiness_eq (env : Env) (s : CharmState) :
    assess_readiness env s =
      if env.isActive HTTPD_SERVICE_NAME = true then
        ([Cmd.systemctlIsActive HTTPD_SERVICE_NAME, Cmd.emitApacheReady],
          { s with ready := true })
      else
        ([Cmd.systemctlIsActive HTTPD_SERVICE_NAME], { s with ready := false }) := by
  unfold assess_readiness is_systemd_unit_active
  cases h : env.isActive HTTPD_SERVICE_NAME <;> simp [h]

theorem assess_readiness_current (env : Env) (s : CharmState) :
    ((assess_readiness env s).2).current = s.current := by
  rw [assess_readiness_eq]
  cases h : env.isActive HTTPD_SERVICE_NAME <;> simp [h]

theorem assess_readiness_countP (env : Env) (s : CharmState) (p : Cmd → Bool)
    (h1 : p (Cmd.systemctlIsActive HTTPD_SERVICE_NAME) = false)
    (h2 : p Cmd.emitApacheReady = false) :
    ((assess_readiness env s).1).countP p = 0 := by
  rw [assess_readiness_eq]
  cases h : env.isActive HTTPD_SERVICE_NAME <;>
    simp [h, List.countP_cons, h1, h2, List.countP, List.countP.go]

theorem toFinset_dedup_eq (l : List String) : l.dedup.toFinset = l.toFinset := by
  ext a
  simp [List.mem_dedup]

theorem symmDiffList_eq_nil_iff (xs ys : List String) :
    symmDiffList xs ys = [] ↔ xs.toFinset = ys.toFinset := by
  unfold symmDiffList
  rw [List.append_eq_nil]
  simp only [List.filter_eq_nil_iff, decide_not, Bool.not_eq_true', decide_eq_false_iff_not,
    Decidable.not_not]
  constructor
  · rintro ⟨h1, h2⟩
    ext a
    simp only [List.mem_toFinset]
    exact ⟨h1 a, h2 a⟩
  · intro h
    have := Finset.ext_iff.mp h
    simp only [List.mem_toFinset] at this
    exact ⟨fun a ha => (this a).mp ha, fun a ha => (this a).mpr ha⟩

theorem systemd_unit_command_supported_trace (env : Env) (command name : String)
    (h : command ∈ SYSTEMCTL_COMMANDS) :
    (systemd_unit_command env command name).1 = [Cmd.systemctl command name] := by
  unfold systemd_unit_command
  rw [if_pos h]

/-- A module whose own disable raises is never removed from
`_current_modules` by a reconciliation pass, whichever other modules
the pass touches before aborting. -/
theorem on_config_changed_mem_preserved (env : Env) (st : CharmState)
    (D : List String) (m : String) (hm : m ∈ st.current)
    (ha : (disable_module env m).2 ≠ none) :
    m ∈ (on_config_changed env st D).state.current := by
  simp only [on_config_changed]
  split
  · next e heq =>
    simpa using disableLoop_mem_of_fail env m ha _ _ hm
  · next heq =>
    have hrd := disableLoop_mem_of_fail env m ha
      (st.current.filter fun x => ¬ x ∈ D.dedup) st.current hm
    split
    · next e heq2 =>
      simpa using enableLoop_mem_mono env _ _ m hrd
    · next heq2 =>
      split
      · simpa [assess_readiness_current] using enableLoop_mem_mono env _ _ m hrd
      · split
        · next e heq3 =>
          simpa using enableLoop_mem_mono env _ _ m hrd
        · next heq3 =>
          simpa [assess_readiness_current] using enableLoop_mem_mono env _ _ m hrd

theorem vhostLoop_all_ok (env : Env) (server_name : String)
    (he : ∀ s, env.ensiteOk s = true) (vs : List VhostSpec) :
    vhostLoop env server_name vs = (vhostBatchTrace env server_name vs, none) := by
  induction vs with
  | nil => simp [vhostLoop, vhostBatchTrace]
  | cons v rest ih =>
    rw [vhostLoop]
    simp only [create_vhost, enable_site, he, if_true, Option.getD_none]
    rw [ih]
    simp [vhostBatchTrace]

theorem vhostBatchTrace_counts (env : Env) (server_name : String)
    (vs : List VhostSpec) :
    (vhostBatchTrace env server_name vs).countP isWriteCmd = vs.length ∧
    (vhostBatchTrace env server_name vs).countP isEnsiteCmd = vs.length ∧
    (vhostBatchTrace env server_name vs).countP isReloadCmd = 0 := by
  induction vs with
  | nil => simp [vhostBatchTrace]
  | cons v rest ih =>
    obtain ⟨h1, h2, h3⟩ := ih
    simp only [vhostBatchTrace, List.map_cons, List.flatten_cons,
      List.countP_append] at h1 h2 h3 ⊢
    simp only [List.countP_cons, List.countP_nil, isWriteCmd, isEnsiteCmd,
      isReloadCmd, h1, h2, h3]
    simp
    omega

/-! ### Claims -/

/-- Claim C1: for every desired module set D and starting applied set C,
if the reconciliation pass (`on_config_changed`) completes without
raising, the persisted current-module set equals D exactly. -/
theorem C1_reconcile_success_yields_desired_modules (env : Env)
    (st : CharmState) (D : List String) (hnd : st.current.Nodup)
    (hok : (on_config_changed env st D).err = none) :
    ((on_config_changed env st D).state.current).toFinset = D.toFinset := by
  rw [show D.toFinset = D.dedup.toFinset from (toFinset_dedup_eq D).symm]
  revert hok
  simp only [on_config_changed]
  split
  · next e heq => intro hok; simp at hok
  · next heq =>
    split
    · next e heq2 => intro hok; simp at hok
    · next heq2 =>
      split
      · intro _
        rw [assess_readiness_current]
        ext a
        simp only [List.mem_toFinset]
        rw [enableLoop_mem_of_ok env D.dedup _ heq2 a,
          disableLoop_mem_of_ok env _ st.current hnd heq a]
        simp only [List.mem_filter, decide_not, Bool.not_eq_true',
          decide_eq_false_iff_not, Decidable.not_not]
        tauto
      · split
        · next e heq3 => intro hok; simp at hok
        · next heq3 =>
          intro _
          rw [assess_readiness_current]
          ext a
          simp only [List.mem_toFinset]
          rw [enableLoop_mem_of_ok env D.dedup _ heq2 a,
            disableLoop_mem_of_ok env _ st.current hnd heq a]
          simp only [List.mem_filter, decide_not, Bool.not_eq_true',
            decide_eq_false_iff_not, Decidable.not_not]
          tauto

theorem C1_witness_concrete_run :
    (["ssl", "headers"] : List String).Nodup ∧
    (on_config_changed envAllOk ⟨["ssl", "headers"], false⟩
        ["headers", "rewrite"]).err = none ∧
    ((on_config_changed envAllOk ⟨["ssl", "headers"], false⟩
        ["headers", "rewrite"]).state.current).toFinset =
      (["headers", "rewrite"] : List String).toFinset :=
  ⟨by decide, by decide,
    C1_reconcile_success_yields_desired_modules envAllOk ⟨["ssl", "headers"], false⟩
      ["headers", "rewrite"] (by decide) (by decide)⟩

/-- Claim C2: when every module toggle succeeds, the pass issues a
restart exactly when the symmetric difference of the pre-mutation
applied set and the desired set is non-empty, and at most one restart is
issued per pass (the count is 1 when it fires, 0 otherwise); this holds
whether or not the restart command itself succeeds. -/
theorem C2_restart_iff_symmetric_difference_nonempty (env : Env)
    (st : CharmState) (D : List String)
    (hd : ∀ m, (disable_module env m).2 = none)
    (he : ∀ m, env.enmodOk m = true) :
    ((on_config_changed env st D).trace).countP isRestartCmd =
      if st.current.toFinset = D.toFinset then 0 else 1 := by
  simp only [on_config_changed]
  split
  · next e heq =>
    rw [disableLoop_err_none env hd _ _] at heq
    cases heq
  · next heq =>
    split
    · next e heq2 =>
      rw [enableLoop_all_ok env he _ _] at heq2
      cases heq2
    · next heq2 =>
      split
      · next hempty =>
        have hfin : st.current.toFinset = D.toFinset := by
          have h2 := (symmDiffList_eq_nil_iff st.current D.dedup).mp
            (List.isEmpty_iff.mp hempty)
          rwa [toFinset_dedup_eq] at h2
        rw [if_pos hfin]
        simp only [List.countP_append]
        rw [disableLoop_countP_restart, enableLoop_countP_restart,
          assess_readiness_countP env _ isRestartCmd rfl rfl]
      · next hempty =>
        have hfin : ¬ st.current.toFinset = D.toFinset := by
          intro hEq
          apply hempty
          rw [List.isEmpty_iff, symmDiffList_eq_nil_iff, toFinset_dedup_eq]
          exact hEq
        rw [if_neg hfin]
        split
        · next e heq3 =>
          simp only [List.countP_append]
          rw [disableLoop_countP_restart, enableLoop_countP_restart,
            systemd_unit_command_supported_trace env "restart" HTTPD_SERVICE_NAME
              (by decide)]
          simp [isRestartCmd]
        · next heq3 =>
          simp only [List.countP_append]
          rw [disableLoop_countP_restart, enableLoop_countP_restart,
            systemd_unit_command_supported_trace env "restart" HTTPD_SERVICE_NAME
              (by decide),
            assess_readiness_countP env _ isRestartCmd rfl rfl]
          simp [isRestartCmd]

theorem C2_witness_concrete_run :
    ((on_config_changed envAllOk ⟨["ssl", "headers"], false⟩
        ["headers", "rewrite"]).trace).countP isRestartCmd =
      if (["ssl", "headers"] : List String).toFinset =
          (["headers", "rewrite"] : List String).toFinset then 0 else 1 :=
  C2_restart_iff_symmetric_difference_nonempty envAllOk ⟨["ssl", "headers"], false⟩
    ["headers", "rewrite"] (fun _ => rfl) (fun _ => rfl)

/-- Claim C3 counterexample: with current modules `{"a"}` and desired
modules `{"a"}` (no change at all), the pass still invokes the external
enable command once — the claim's "zero external enable commands" is
false on the code, whose enable loop runs over every desired module
unconditionally. -/
theorem C3_counterexample_enable_invoked_when_unchanged :
    ((on_config_changed envAllOk ⟨["a"], false⟩ ["a"]).trace).countP
      isEnmodCmd = 1 := by
  decide

/-- Claim C3 as amended: reconciling with a desired set equal to the
current applied set performs zero external disable commands and issues
zero restarts, but it still invokes the external enable command once per
desired module (idempotent at the OS level), rather than zero times. -/
theorem C3_amended_no_disable_no_restart_but_enables (env : Env)
    (st : CharmState) (D : List String)
    (hset : st.current.toFinset = D.toFinset)
    (he : ∀ m, env.enmodOk m = true) :
    ((on_config_changed env st D).trace).countP isDismodCmd = 0 ∧
    ((on_config_changed env st D).trace).countP isRestartCmd = 0 ∧
    ((on_config_changed env st D).trace).countP isEnmodCmd = D.dedup.length := by
  have htd : st.current.filter (fun m => ¬ m ∈ D.dedup) = [] := by
    rw [List.filter_eq_nil_iff]
    intro a ha
    simp only [decide_not, Bool.not_eq_true', decide_eq_false_iff_not,
      Decidable.not_not]
    have hmem := Finset.ext_iff.mp hset a
    simp only [List.mem_toFinset] at hmem
    exact List.mem_dedup.mpr (hmem.mp ha)
  have hch : symmDiffList st.current D.dedup = [] := by
    rw [symmDiffList_eq_nil_iff, toFinset_dedup_eq]
    exact hset
  simp only [on_config_changed, htd, hch, disableLoop]
  rw [enableLoop_all_ok env he]
  simp only [List.isEmpty_nil, if_true, List.nil_append, List.countP_append]
  refine ⟨?_, ?_, ?_⟩
  · rw [assess_readiness_countP env _ isDismodCmd rfl rfl]
    have hmap : (List.map Cmd.a2enmod D.dedup).countP isDismodCmd = 0 := by
      rw [List.countP_eq_zero]
      intro c hc
      obtain ⟨x, _, hx⟩ := List.mem_map.mp hc
      rw [← hx]
      simp [isDismodCmd]
    rw [hmap]
  · rw [assess_readiness_countP env _ isRestartCmd rfl rfl]
    have hmap : (List.map Cmd.a2enmod D.dedup).countP isRestartCmd = 0 := by
      rw [List.countP_eq_zero]
      intro c hc
      obtain ⟨x, _, hx⟩ := List.mem_map.mp hc
      rw [← hx]
      simp [isRestartCmd]
    rw [hmap]
  · rw [assess_readiness_countP env _ isEnmodCmd rfl rfl]
    have hmap : (List.map Cmd.a2enmod D.dedup).countP isEnmodCmd =
        (List.map Cmd.a2enmod D.dedup).length := by
      rw [List.countP_eq_length]
      intro c hc
      obtain ⟨x, _, hx⟩ := List.mem_map.mp hc
      rw [← hx]
      simp [isEnmodCmd]
    rw [hmap, List.length_map]
    omega

theorem C3_witness_concrete_run :
    ((on_config_changed envAllOk ⟨["a"], false⟩ ["a"]).trace).countP
        isDismodCmd = 0 ∧
    ((on_config_changed envAllOk ⟨["a"], false⟩ ["a"]).trace).countP
        isRestartCmd = 0 ∧
    ((on_config_changed envAllOk ⟨["a"], false⟩ ["a"]).trace).countP
        isEnmodCmd = (["a"] : List String).dedup.length :=
  C3_amended_no_disable_no_restart_but_enables envAllOk ⟨["a"], false⟩ ["a"]
    (by decide) (fun _ => rfl)

/-- Claim C4: a module whose probe reports OffByAdmin or OffByMaintainer
is disabled successfully without invoking `a2dismod` (the trace holds
only the probe); a module whose probe reports NotFound raises
`ApacheModuleDisableException` (the not-found raise site) and, inside a
reconciliation pass, the module is never removed from
`_current_modules`. -/
theorem C4_disable_already_off_ok_notfound_raises (env : Env) (m : String) :
    ((env.moduleQueryCode m = 32 ∨ env.moduleQueryCode m = 33) →
      disable_module env m = ([Cmd.a2query m], none)) ∧
    (env.moduleQueryCode m = 1 →
      disable_module env m =
        ([Cmd.a2query m], some (PyErr.apacheModuleDisable DisableReason.notFound)) ∧
      ∀ st D, m ∈ st.current → ¬ m ∈ D →
        m ∈ (on_config_changed env st D).state.current) := by
  constructor
  · rintro (h | h) <;>
      simp [disable_module, get_module_state, moduleStateOfCode, h]
  · intro h1
    constructor
    · simp [disable_module, get_module_state, moduleStateOfCode, h1]
    · intro st D hm _
      apply on_config_changed_mem_preserved env st D m hm
      simp [disable_module, get_module_state, moduleStateOfCode, h1]

theorem C4_witness_concrete_run :
    disable_module envOffByMaintainer "ssl" = ([Cmd.a2query "ssl"], none) ∧
    disable_module envNotFound "ssl" =
      ([Cmd.a2query "ssl"],
        some (PyErr.apacheModuleDisable DisableReason.notFound)) ∧
    "ssl" ∈ (on_config_changed envNotFound ⟨["ssl"], false⟩ []).state.current :=
  ⟨(C4_disable_already_off_ok_notfound_raises envOffByMaintainer "ssl").1
      (Or.inr rfl),
    ((C4_disable_already_off_ok_notfound_raises envNotFound "ssl").2 rfl).1,
    ((C4_disable_already_off_ok_notfound_raises envNotFound "ssl").2 rfl).2
      ⟨["ssl"], false⟩ [] (by decide) (by decide)⟩

/-- Claim C5: a vhost-relation pass entered with readiness true, a peer
unit present, and a non-empty payload of N vhost specs — with every
site activation succeeding — issues, per vhost in payload order, one
file write then one activation (exactly N of each), followed by exactly
one reload after all activations, and does not defer. -/
theorem C5_ready_batch_writes_activations_single_reload (env : Env)
    (st : CharmState) (vhosts : List VhostSpec) (server_name : String)
    (hready : st.ready = true) (_hne : ¬ vhosts = [])
    (he : ∀ s, env.ensiteOk s = true) :
    (on_vhost_config_relation_changed env st true (some vhosts)
        server_name).trace =
      vhostBatchTrace env server_name vhosts ++
        [Cmd.systemctl "reload" HTTPD_SERVICE_NAME] ∧
    ((on_vhost_config_relation_changed env st true (some vhosts)
        server_name).trace).countP isWriteCmd = vhosts.length ∧
    ((on_vhost_config_relation_changed env st true (some vhosts)
        server_name).trace).countP isEnsiteCmd = vhosts.length ∧
    ((on_vhost_config_relation_changed env st true (some vhosts)
        server_name).trace).countP isReloadCmd = 1 ∧
    (on_vhost_config_relation_changed env st true (some vhosts)
        server_name).deferred = false := by
  have hrun : on_vhost_config_relation_changed env st true (some vhosts)
      server_name =
      ⟨vhostBatchTrace env server_name vhosts ++
          [Cmd.systemctl "reload" HTTPD_SERVICE_NAME], st, false,
        if env.systemctlRc "reload" HTTPD_SERVICE_NAME = 0 then none
        else some (PyErr.systemctlCommand "reload"
          (env.systemctlRc "reload" HTTPD_SERVICE_NAME))⟩ := by
    unfold on_vhost_config_relation_changed
    rw [hready]
    simp only [vhostLoop_all_ok env server_name he vhosts,
      systemd_unit_command]
    rw [if_pos (show ("reload" : String) ∈ SYSTEMCTL_COMMANDS by decide)]
    simp
  rw [hrun]
  obtain ⟨h1, h2, h3⟩ := vhostBatchTrace_counts env server_name vhosts
  refine ⟨rfl, ?_, ?_, ?_, rfl⟩ <;>
    simp [List.countP_append, h1, h2, h3, isWriteCmd, isEnsiteCmd, isReloadCmd]

theorem C5_witness_concrete_run :
    (on_vhost_config_relation_changed envAllOk ⟨[], true⟩ true
        (some [⟨"TGlzdGVuIDgwODA=", 8080, none⟩]) "web").trace =
      vhostBatchTrace envAllOk "web" [⟨"TGlzdGVuIDgwODA=", 8080, none⟩] ++
        [Cmd.systemctl "reload" HTTPD_SERVICE_NAME] ∧
    (on_vhost_config_relation_changed envAllOk ⟨[], true⟩ true
        (some [⟨"TGlzdGVuIDgwODA=", 8080, none⟩]) "web").deferred = false :=
  ⟨(C5_ready_batch_writes_activations_single_reload envAllOk ⟨[], true⟩
      [⟨"TGlzdGVuIDgwODA=", 8080, none⟩] "web" rfl (by decide)
      (fun _ => rfl)).1,
   (C5_ready_batch_writes_activations_single_reload envAllOk ⟨[], true⟩
      [⟨"TGlzdGVuIDgwODA=", 8080, none⟩] "web" rfl (by decide)
      (fun _ => rfl)).2.2.2.2⟩

/-- Claim C6: a vhost-relation event arriving while `state.ready` is
false is deferred (not dropped): the handler performs no writes, no
activations, no reload — the trace is empty — raises nothing, and
leaves the stored state untouched. -/
theorem C6_not_ready_defers_with_no_effects (env : Env) (st : CharmState)
    (hasUnit : Bool) (payload : Option (List VhostSpec))
    (server_name : String) (h : st.ready = false) :
    on_vhost_config_relation_changed env st hasUnit payload server_name =
      ⟨[], st, true, none⟩ := by
  unfold on_vhost_config_relation_changed
  rw [if_pos h]

theorem C6_witness_concrete_run :
    on_vhost_config_relation_changed envAllOk ⟨["ssl"], false⟩ true
        (some [⟨"dGVtcGw=", 80, none⟩]) "web" =
      ⟨[], ⟨["ssl"], false⟩, true, none⟩ :=
  C6_not_ready_defers_with_no_effects envAllOk ⟨["ssl"], false⟩ true
    (some [⟨"dGVtcGw=", 80, none⟩]) "web" rfl

/-- Claim C7 counterexample: a vhost spec whose payload supplies
`protocol = "http"` (port 8080, server name "web").  The claim says the
derived site identifier is "web_http"; the code activates "web_8080" —
the handler never forwards the payload's protocol field to
`create_vhost`. -/
theorem C7_counterexample_protocol_ignored :
    specSiteName "web" ⟨"TGlzdGVuIDgwODA=", 8080, some "http"⟩ = "web_http" ∧
    (on_vhost_config_relation_changed envAllOk ⟨[], true⟩ true
        (some [⟨"TGlzdGVuIDgwODA=", 8080, some "http"⟩]) "web").trace =
      [Cmd.writeFile "/etc/apache2/sites-available/web_8080.conf"
          "TGlzdGVuIDgwODA=",
        Cmd.a2ensite "web_8080", Cmd.systemctl "reload" "apache2"] ∧
    ¬ ("web_8080" : String) = "web_http" := by
  refine ⟨rfl, ?_, by decide⟩
  decide

/-- Claim C7 as amended: for every vhost spec processed during
activation, the derived site identifier is the server name joined by an
underscore to the spec's port, whether or not the payload supplies a
protocol field — the handler calls `create_vhost` without a protocol
argument, so the protocol never reaches the name. -/
theorem C7_amended_site_name_always_uses_port (env : Env)
    (server_name : String) (v : VhostSpec) (rest : List VhostSpec) :
    ((vhostLoop env server_name (v :: rest)).1).take 2 =
      [Cmd.writeFile ("/etc/apache2/sites-available/" ++
          (server_name ++ "_" ++ toString v.port) ++ ".conf")
          (env.b64decode v.template),
        Cmd.a2ensite (server_name ++ "_" ++ toString v.port)] := by
  rw [vhostLoop]
  simp only [create_vhost, enable_site, Option.getD_none]
  split <;> simp

/-- Claim C8 counterexample: `apt_install` called with an empty package
list does not fail — an empty Python list still satisfies the
`Sequence` check, so the install command is run (with no package names
appended) and no exception is raised. -/
theorem C8_counterexample_empty_list_runs_install :
    apt_install envAllOk (PyPackages.pyList []) none =
      ([Cmd.aptGet ["apt-get", "--assume-yes",
        "--option=Dpkg::Options::=--force-confold", "install"]], none) := by
  decide

/-- Claim C8 as amended: `apt_install` raises `ValueError` only when the
packages argument is not a `Sequence`; for every list of package names —
including the empty list — it proceeds to run the install command with
the packages appended in order, raising only if the command itself
returns a non-zero status. -/
theorem C8_amended_sequence_always_runs_install (env : Env)
    (ps : List String) (options : Option (List String)) :
    apt_install env (PyPackages.pyList ps) options =
      ([Cmd.aptGet (["apt-get", "--assume-yes"] ++
          options.getD ["--option=Dpkg::Options::=--force-confold"] ++
          ["install"] ++ ps)],
        if env.aptRc (["apt-get", "--assume-yes"] ++
            options.getD ["--option=Dpkg::Options::=--force-confold"] ++
            ["install"] ++ ps) = 0
        then none else some PyErr.calledProcessError) ∧
    apt_install env PyPackages.notSequence options =
      ([], some PyErr.valueError) := by
  constructor
  · simp [apt_install, List.append_assoc]
  · rfl

/-- Claim C9 counterexample: invoking the service-control operation with
the unsupported command "status" raises `NotImplementedError`, which is
not the `SystemctlCommandException` kind the claim names (no external
command is executed, which part of the claim is accurate). -/
theorem C9_counterexample_unsupported_raises_notimplemented :
    systemd_unit_command envAllOk "status" HTTPD_SERVICE_NAME =
      ([], some PyErr.notImplementedError) ∧
    PyErr.notImplementedError.isSystemctlCommand = false := by
  constructor
  · decide
  · rfl

/-- Claim C9 as amended: a command outside the supported set raises
`NotImplementedError` — a kind distinct from `SystemctlCommandException`
— and no external command is executed; a supported command returning a
non-zero status raises `SystemctlCommandException` after the command is
issued. -/
theorem C9_amended_unsupported_command_not_executed (env : Env)
    (command name : String) :
    (¬ command ∈ SYSTEMCTL_COMMANDS →
      systemd_unit_command env command name =
        ([], some PyErr.notImplementedError)) ∧
    (command ∈ SYSTEMCTL_COMMANDS → ¬ env.systemctlRc command name = 0 →
      systemd_unit_command env command name =
        ([Cmd.systemctl command name],
          some (PyErr.systemctlCommand command
            (env.systemctlRc command name)))) := by
  constructor
  · intro h
    unfold systemd_unit_command
    rw [if_neg h]
  · intro h hrc
    unfold systemd_unit_command
    rw [if_pos h]
    simp [hrc]

theorem C9_witness_concrete_run :
    systemd_unit_command envAllOk "status" HTTPD_SERVICE_NAME =
      ([], some PyErr.notImplementedError) ∧
    systemd_unit_command envRc1 "restart" HTTPD_SERVICE_NAME =
      ([Cmd.systemctl "restart" HTTPD_SERVICE_NAME],
        some (PyErr.systemctlCommand "restart" 1)) :=
  ⟨(C9_amended_unsupported_command_not_executed envAllOk "status"
      HTTPD_SERVICE_NAME).1 (by decide),
    (C9_amended_unsupported_command_not_executed envRc1 "restart"
      HTTPD_SERVICE_NAME).2 (by decide) (by decide)⟩

/-- Claim C10: a module whose probe command exits with a code outside
{0, 1, 32, 33} makes the module-state query raise `ValueError` (from the
`ModuleState` enum constructor) instead of returning a state, so
`_disable_module` propagates that `ValueError`; consequently its final
"unexpected module state" branch can never fire — no input makes
`_disable_module` return the unexpected-state module-disable error. -/
theorem C10_invalid_probe_code_raises_valueerror (env : Env) (m : String) :
    (¬ env.moduleQueryCode m ∈ ([0, 1, 32, 33] : List Nat) →
      disable_module env m = ([Cmd.a2query m], some PyErr.valueError)) ∧
    ¬ (disable_module env m).2 =
        some (PyErr.apacheModuleDisable DisableReason.unexpectedState) := by
  constructor
  · intro h
    simp only [List.mem_cons, List.not_mem_nil, or_false, not_or] at h
    obtain ⟨h0, h1, h32, h33⟩ := h
    simp [disable_module, get_module_state, moduleStateOfCode, h0, h1, h32, h33]
  · unfold disable_module get_module_state
    cases h : moduleStateOfCode (env.moduleQueryCode m) with
    | none => simp
    | some s => cases s <;> cases hd : env.dismodOk m <;> simp [hd]

theorem C10_witness_concrete_run :
    disable_module envBadCode "ssl" = ([Cmd.a2query "ssl"], some PyErr.valueError) :=
  (C10_invalid_probe_code_raises_valueerror envBadCode "ssl").1 (by decide)
